import Mathlib

/-!
Verification development for the tyk-k8s sidecar-injection admission
controller.  The definitions below are a shallow embedding of the Go
source: the annotation mutation processor (`processor/proc.go`) and the
injector webhook (`injector` package).  Go maps `map[string]string` are
embedded as association lists with unique keys; Go map iteration order
is unspecified, so `Process` takes the entries as an explicit list whose
order stands for one iteration order.  JSON documents (Go `string`s
holding JSON, manipulated through the sjson/gjson libraries) are
embedded as a `Json` value type.
-/

namespace TykK8s

/-- JSON value type.  Numbers are embedded as integers: the Go code only
ever writes integer numbers (`strconv.Atoi` results), and no claim
depends on fractional numerals. -/
inductive Json where
  | null
  | bool (b : Bool)
  | num (n : Int)
  | str (s : String)
  | arr (xs : List Json)
  | obj (kvs : List (String × Json))

/-- Models Go `strings.ToLower` for the ASCII range; every string the
source compares after lowering (`injected`, `y`/`yes`/`true`/`on`,
`true`/`false`, `tyk-mesh`, `pod`/`service`) is ASCII. -/
def strToLower (s : String) : String := ⟨s.data.map Char.toLower⟩

/-- Models `strings.Replace(s, "-", "_", -1)`: the pattern is the single
character `-`, so the call is a character-wise replacement. -/
def replaceDashes (s : String) : String :=
  ⟨s.data.map (fun c => if c = '-' then '_' else c)⟩

/-- Models Go `strings.HasPrefix`. -/
def strHasPfx (p s : String) : Bool := p.data.isPrefixOf s.data

/-- Models the Go slice expression `key[len(p):]`; all prefixes used are
ASCII, so byte indexing and character indexing agree. -/
def strDropPfx (p s : String) : String := ⟨s.data.drop p.data.length⟩

def splitDotsAux : List Char → List Char → List String
  | [], acc => [⟨acc.reverse⟩]
  | c :: tl, acc =>
    if c = '.' then ⟨acc.reverse⟩ :: splitDotsAux tl []
    else splitDotsAux tl (c :: acc)

/-- Splitting of an sjson path into its `.`-separated segments. -/
def splitDots (cs : List Char) : List String := splitDotsAux cs []

/-- Models `strconv.Atoi`: optional sign followed by at least one digit.
(Go additionally errors on 64-bit overflow; no claim depends on that.) -/
def atoi (s : String) : Option Int :=
  let (sign, digits) : Int × List Char :=
    match s.data with
    | '+' :: tl => (1, tl)
    | '-' :: tl => (-1, tl)
    | l => (1, l)
  if digits.isEmpty then none
  else if digits.all (fun c => c.isDigit) then
    some (sign * (digits.foldl (fun a c => a * 10 + (c.toNat - 48)) 0 : Nat))
  else none

def isWs (c : Char) : Bool := c = ' ' || c = '\n' || c = '\t' || c = '\r'

def skipWs : List Char → List Char
  | [] => []
  | c :: tl => if isWs c then skipWs tl else c :: tl

def unescape (c : Char) : Option Char :=
  if c = '\"' then some '\"'
  else if c = '\\' then some '\\'
  else if c = '/' then some '/'
  else if c = 'n' then some '\n'
  else if c = 't' then some '\t'
  else if c = 'r' then some '\r'
  else if c = 'b' then some (Char.ofNat 8)
  else if c = 'f' then some (Char.ofNat 12)
  else none

/-- Parses the body of a JSON string literal (after the opening quote),
returning the decoded string and the input after the closing quote. -/
def parseStringBody : List Char → Option (String × List Char)
  | [] => none
  | c :: tl =>
    if c = '\"' then some ("", tl)
    else if c = '\\' then
      match tl with
      | [] => none
      | e :: tl2 =>
        match unescape e with
        | none => none
        | some ch =>
          match parseStringBody tl2 with
          | none => none
          | some (s, rest) => some (⟨ch :: s.data⟩, rest)
    else
      match parseStringBody tl with
      | none => none
      | some (s, rest) => some (⟨c :: s.data⟩, rest)

def takeDigits : List Char → List Char × List Char
  | [] => ([], [])
  | c :: tl =>
    if c.isDigit then
      let (ds, r) := takeDigits tl
      (c :: ds, r)
    else ([], c :: tl)

def digitsToNat (ds : List Char) : Nat :=
  ds.foldl (fun a c => a * 10 + (c.toNat - 48)) 0

mutual

/-- Fuel-indexed JSON value parser, modelling `encoding/json.Unmarshal`
on the subset the source can receive (integer numerals, the escapes of
`unescape`; fractional numerals and `\uXXXX` escapes are rejected where
Go would accept them — no claim exercises those). -/
def parseValue (fuel : Nat) (cs : List Char) : Option (Json × List Char) :=
  match fuel with
  | 0 => none
  | fuel' + 1 =>
    match skipWs cs with
    | [] => none
    | c :: tl =>
      if c = '{' then
        match skipWs tl with
        | '}' :: r => some (.obj [], r)
        | r => parseObjItems fuel' r []
      else if c = '[' then
        match skipWs tl with
        | ']' :: r => some (.arr [], r)
        | r => parseArrItems fuel' r []
      else if c = '\"' then
        match parseStringBody tl with
        | some (s, r) => some (.str s, r)
        | none => none
      else if c = 't' then
        match tl with
        | 'r' :: 'u' :: 'e' :: r => some (.bool true, r)
        | _ => none
      else if c = 'f' then
        match tl with
        | 'a' :: 'l' :: 's' :: 'e' :: r => some (.bool false, r)
        | _ => none
      else if c = 'n' then
        match tl with
        | 'u' :: 'l' :: 'l' :: r => some (.null, r)
        | _ => none
      else if c = '-' then
        match takeDigits tl with
        | ([], _) => none
        | (ds, r) => some (.num (-(digitsToNat ds : Int)), r)
      else if c.isDigit then
        match takeDigits (c :: tl) with
        | (ds, r) => some (.num (digitsToNat ds), r)
      else none

def parseObjItems (fuel : Nat) (cs : List Char) (acc : List (String × Json)) :
    Option (Json × List Char) :=
  match fuel with
  | 0 => none
  | fuel' + 1 =>
    match skipWs cs with
    | '\"' :: tl =>
      match parseStringBody tl with
      | none => none
      | some (k, r1) =>
        match skipWs r1 with
        | ':' :: r2 =>
          match parseValue fuel' r2 with
          | none => none
          | some (v, r3) =>
            match skipWs r3 with
            | ',' :: r4 => parseObjItems fuel' r4 (acc ++ [(k, v)])
            | '}' :: r4 => some (.obj (acc ++ [(k, v)]), r4)
            | _ => none
        | _ => none
    | _ => none

def parseArrItems (fuel : Nat) (cs : List Char) (acc : List Json) :
    Option (Json × List Char) :=
  match fuel with
  | 0 => none
  | fuel' + 1 =>
    match parseValue fuel' cs with
    | none => none
    | some (v, r1) =>
      match skipWs r1 with
      | ',' :: r2 => parseArrItems fuel' r2 (acc ++ [v])
      | ']' :: r2 => some (.arr (acc ++ [v]), r2)
      | _ => none

end

/-- Models `encoding/json.Unmarshal` of a whole value: the parse must
consume the entire input (modulo trailing whitespace). -/
def parseJson (s : String) : Option Json :=
  match parseValue (s.data.length + 1) s.data with
  | none => none
  | some (v, rest) => if skipWs rest = [] then some v else none

def assocSet : List (String × Json) → String → Json → List (String × Json)
  | [], k, v => [(k, v)]
  | (k', v') :: tl, k, v =>
    if k' = k then (k, v) :: tl else (k', v') :: assocSet tl k v

/-- Models `sjson.Set` for the paths the source produces: `.`-separated
object-key segments (no array indices or modifiers appear in annotation
keys after the prefix strip).  Missing intermediate keys are created as
objects; a non-object intermediate value is replaced by an object. -/
def jsonSetPath : List String → Json → Json → Json
  | [], _, v => v
  | seg :: rest, .obj kvs, v =>
    let child := (kvs.lookup seg).getD .null
    .obj (assocSet kvs seg (jsonSetPath rest child v))
  | seg :: rest, _, v => .obj [(seg, jsonSetPath rest .null v)]

/-- Models `gjson` path lookup for object-key segments. -/
def jsonGetPath : List String → Json → Option Json
  | [], v => some v
  | seg :: rest, .obj kvs =>
    match kvs.lookup seg with
    | some v => jsonGetPath rest v
    | none => none
  | _ :: _, _ => none

/-- String read at a path: `some s` exactly when the path resolves to the
JSON string `s`. -/
def jsonGetString (segs : List String) (d : Json) : Option String :=
  match jsonGetPath segs d with
  | some (.str s) => some s
  | _ => none

/-! ### processor/proc.go -/

def ValueSetStringKey : String := "string.service.tyk.io/"
def ValueSetBoolKey : String := "bool.service.tyk.io/"
def ValueSetNumKey : String := "num.service.tyk.io/"
def ObjectSetKey : String := "object.service.tyk.io/"
def ArraySetKey : String := "array.service.tyk.io/"

/-- The five typed-write kinds of `ValueType` in `processor/proc.go`. -/
inductive ValueType where
  | stringKey
  | boolKey
  | numKey
  | objectKey
  | arrayKey
deriving DecidableEq

def valueTypeStr : ValueType → String
  | .stringKey => ValueSetStringKey
  | .boolKey => ValueSetBoolKey
  | .numKey => ValueSetNumKey
  | .objectKey => ObjectSetKey
  | .arrayKey => ArraySetKey

/-- Error kinds of the processor: the unsupported-bool literal error, the
`strconv.Atoi` error, the `json.Unmarshal` error, and the (unreachable
for the five known kinds) unsupported-type error. -/
inductive ProcError where
  | unsupportedBoolValue
  | atoiError
  | unmarshalError
  | unsupportedType
deriving DecidableEq

/-- Embeds `set` of `processor/proc.go` (lines 26-76): strip the typed
key's namespace, translate `-` to `_`, and write the coerced value into
the document at the resulting sjson path.  Returns the (possibly
unchanged) document together with an optional error, as the Go function
returns `(string, error)`. -/
def set (key val : String) (doc : Json) (t : ValueType) : Json × Option ProcError :=
  let pth := replaceDashes (strDropPfx (valueTypeStr t) key)
  let segs := splitDots pth.data
  match t with
  | .stringKey => (jsonSetPath segs doc (.str val), none)
  | .boolKey =>
    if strToLower val = "true" then (jsonSetPath segs doc (.bool true), none)
    else if strToLower val = "false" then (jsonSetPath segs doc (.bool false), none)
    else (doc, some .unsupportedBoolValue)
  | .numKey =>
    match atoi val with
    | some d => (jsonSetPath segs doc (.num d), none)
    | none => (doc, some .atoiError)
  | .objectKey =>
    match parseJson val with
    | some (.obj kvs) => (jsonSetPath segs doc (.obj kvs), none)
    | _ => (doc, some .unmarshalError)
  | .arrayKey =>
    match parseJson val with
    | some (.arr xs) => (jsonSetPath segs doc (.arr xs), none)
    | _ => (doc, some .unmarshalError)

/-- One step of the prefix dispatch inside `Process`'s loop body: if the
entry has not already failed and the key carries the given typed
namespace, apply `set`; Go's `return def, err` on error is modelled by
short-circuiting every later step once an error is present. -/
def thenPfx (k v : String) (t : ValueType) : Json × Option ProcError → Json × Option ProcError
  | (d, some e) => (d, some e)
  | (d, none) => if strHasPfx (valueTypeStr t) k then set k v d t else (d, none)

/-- The body of `Process`'s `for k, v := range ann` loop for a single
entry, testing the five prefixes in the source's order (string, num,
bool, array, object). -/
def processEntry (k v : String) (doc : Json) : Json × Option ProcError :=
  thenPfx k v .objectKey
    (thenPfx k v .arrayKey
      (thenPfx k v .boolKey
        (thenPfx k v .numKey
          (thenPfx k v .stringKey (doc, none)))))

/-- Embeds `Process` of `processor/proc.go` (lines 78-118).  The entry
list stands for one iteration order of the Go map.  On the first failing
entry the document accumulated so far is returned with the error; later
entries are not processed. -/
def Process : List (String × String) → Json → Json × Option ProcError
  | [], doc => (doc, none)
  | (k, v) :: rest, doc =>
    match processEntry k v doc with
    | (d, some e) => (d, some e)
    | (d, none) => Process rest d

/-! ### injector package: data model

The pieces of the Kubernetes API types (`corev1`, `metav1`) that the
injector code reads or writes.  Annotation and label maps are association
lists with unique keys; a `nil` annotation map is `none` (distinct from
an empty map, because Go panics on assignment to a nil map).
-/

structure EnvVar where
  name : String
  value : String
deriving DecidableEq

structure VolumeMount where
  name : String
  mountPath : String
deriving DecidableEq

structure Container where
  name : String
  env : List EnvVar
  volumeMounts : List VolumeMount
deriving DecidableEq

structure HostAlias where
  ip : String
  hostnames : List String
deriving DecidableEq

inductive VolumeSource where
  | configMap (localObjectReferenceName : String)
  | emptyDir
deriving DecidableEq

structure Volume where
  name : String
  source : VolumeSource
deriving DecidableEq

structure PodSpec where
  containers : List Container
  initContainers : List Container
  hostAliases : List HostAlias
  volumes : List Volume
deriving DecidableEq

structure ObjectMeta where
  name : String
  generateName : String
  ns : String
  labels : List (String × String)
  anns : Option (List (String × String))
deriving DecidableEq

structure Pod where
  meta : ObjectMeta
  spec : PodSpec
deriving DecidableEq

structure ServicePort where
  name : String
  port : Int
  targetPort : Int
deriving DecidableEq

structure ServiceSpec where
  ports : List ServicePort
deriving DecidableEq

structure Service where
  meta : ObjectMeta
  spec : ServiceSpec
deriving DecidableEq

/-- The injector's sidecar template `Config` (injector lines 62-68). -/
structure Config where
  containers : List Container
  initContainers : List Container
  createRoutes : Bool
  enableMeshTLS : Bool
  meshCertificateID : String
deriving DecidableEq

/-- `patchOperation.Value` is `interface\x7b\x7d` in Go; the injector only
ever stores a pod spec, an annotation map, or a service port there. -/
inductive PatchValue where
  | spec (s : PodSpec)
  | anns (m : List (String × String))
  | svcPort (p : ServicePort)
deriving DecidableEq

structure patchOperation where
  op : String
  path : String
  value : PatchValue
deriving DecidableEq

/-! ### injector package: constants -/

def AdmissionWebhookAnnotationInjectKey : String := "injector.tyk.io/inject"
def admissionWebhookAnnotationRouteKey : String := "injector.tyk.io/route"
def AdmissionWebhookAnnotationStatusKey : String := "injector.tyk.io/status"
def AdmissionWebhookAnnotationInboundServiceIDKey : String :=
  "injector.tyk.io/inbound-service-id"
def AdmissionWebhookAnnotationMeshServiceIDKey : String :=
  "injector.tyk.io/mesh-service-id"
def meshTag : String := "mesh"
def tagVarName : String := "TYK_GW_DBAPPCONFOPTIONS_TAGS"
def volName : String := "ca-pem"
def certVolumenName : String := "ssl-certs"

/-- `ignoredNamespaces`: the values of `metav1.NamespaceSystem` and
`metav1.NamespacePublic` from the Kubernetes API machinery. -/
def ignoredNamespaces : List String := ["kube-system", "kube-public"]

/-! ### annotation-map operations -/

/-- Go map read `m[k]` with the string zero value for a missing key. -/
def annGet (m : List (String × String)) (k : String) : String :=
  (m.lookup k).getD ""

/-- Go map assignment `m[k] = v`: replaces the value of an existing key,
otherwise adds the binding. -/
def annSet : List (String × String) → String → String → List (String × String)
  | [], k, v => [(k, v)]
  | (k', v') :: tl, k, v =>
    if k' = k then (k, v) :: tl else (k', v') :: annSet tl k v

/-- Go `delete(m, k)`. -/
def annDelete (m : List (String × String)) (k : String) : List (String × String) :=
  m.filter (fun p => p.1 != k)

/-- Go map assignment on a possibly-nil map: assignment to a nil map
panics, modelled as `none`. -/
def annMapAssign : Option (List (String × String)) → String → String →
    Option (List (String × String))
  | none, _, _ => none
  | some m, k, v => some (annSet m k v)

/-! ### injector package: functions -/

/-- Embeds `mutationRequired` (injector lines 105-136).  The loop over
`ignoredList` is a membership test; `GetAnnotations` yields the pod's map
(`nil` replaced by an empty map); the Go `switch` over the lowered
inject-flag value is a membership test against its four case literals. -/
def mutationRequired (ignoredList : List String) (meta : ObjectMeta) : Bool :=
  if ignoredList.contains meta.ns then false
  else
    let anns := meta.anns.getD []
    let status := annGet anns AdmissionWebhookAnnotationStatusKey
    if strToLower status = "injected" then false
    else
      ["y", "yes", "true", "on"].contains
        (strToLower (annGet anns AdmissionWebhookAnnotationInjectKey))

/-- Embeds `addContainer` (injector lines 138-158): append the fixed host
alias and the injected containers.  (The `len == 0` re-initialisation in
the source only normalises `nil` slices and is the identity here.) -/
def addContainer (pod : Pod) (added : List Container) : PodSpec :=
  let spec := pod.spec
  { spec with
    hostAliases := spec.hostAliases ++ [⟨"127.0.0.1", ["mesh", "mesh.local"]⟩],
    containers := spec.containers ++ added }

/-- Embeds `addInitContainer` (injector lines 160-170). -/
def addInitContainer (spec : PodSpec) (added : List Container) : PodSpec :=
  { spec with initContainers := spec.initContainers ++ added }

/-- Embeds `updateAnnotation` (injector lines 172-184): a single `add`
patch op at `/metadata/annotations` carrying the new map. -/
def updateAnnotationOps (target : Option (List (String × String)))
    (added : List (String × String)) : List patchOperation :=
  let _ := target.getD []
  [{ op := "add", path := "/metadata/annotations", value := .anns added }]

/-- Embeds `mutateService` (injector lines 186-211). -/
def mutateService (svc : Service) (basePath : String) (sidecarConfig : Config) :
    List patchOperation :=
  let sidecarPort : Int := 8080
  let sidecarSvcPort : ServicePort :=
    { name := "tyk-sidecar", port := sidecarPort, targetPort := sidecarPort }
  let opp := if svc.spec.ports.length > 1 then "add" else "replace"
  let path := if svc.spec.ports.length > 1 then "/spec/ports" else "/spec/ports/0"
  [{ op := opp, path := path, value := .svcPort sidecarSvcPort }]

/-- Embeds `addVolume` (injector lines 213-244). -/
def addVolume (spec : PodSpec) (sidecarConfig : Config) : PodSpec :=
  if !sidecarConfig.enableMeshTLS then spec
  else
    { spec with
      volumes := spec.volumes ++
        [⟨volName, .configMap volName⟩, ⟨certVolumenName, .emptyDir⟩] }

/-- Embeds `injectCAVolume` (injector lines 251-273). -/
def injectCAVolume (spec : PodSpec) (sidecarConfig : Config) : PodSpec :=
  if !sidecarConfig.enableMeshTLS then spec
  else
    { spec with
      containers := spec.containers.map (fun c =>
        { c with volumeMounts := c.volumeMounts ++ [⟨certVolumenName, "/etc/ssl/certs"⟩] }) }

/-- Inner loop of `preProcessContainerTpl`: replace the first `Env` entry
named `tagVarName`, or report that none exists. -/
def replaceTagEnv (tagEnv : EnvVar) : List EnvVar → Option (List EnvVar)
  | [] => none
  | e :: tl =>
    if e.name = tagVarName then some (tagEnv :: tl)
    else (replaceTagEnv tagEnv tl).map (e :: ·)

/-- Outer loop of `preProcessContainerTpl` over the template containers:
on the first container named `tyk-mesh` (case-insensitively), update the
existing tag variable in place (then return), or append it (then break);
all other containers are untouched. -/
def preProcessLoop (tagEnv : EnvVar) : List Container → List Container
  | [] => []
  | c :: tl =>
    if strToLower c.name = "tyk-mesh" then
      match replaceTagEnv tagEnv c.env with
      | some env' => { c with env := env' } :: tl
      | none => { c with env := c.env ++ [tagEnv] } :: tl
    else c :: preProcessLoop tagEnv tl

/-- Embeds `preProcessContainerTpl` (injector lines 279-304).  In Go the
`containers` argument is the slice `sidecarConfig.Containers` itself: the
element updates performed here write through the shared backing array, so
the returned list is also the config's container list after the call. -/
def preProcessContainerTpl (pod : Pod) (containers : List Container) : List Container :=
  let sName :=
    match pod.meta.labels.lookup "app" with
    | some v => v
    | none => pod.meta.generateName ++ "please-set-app-label"
  let tags := "mesh," ++ sName
  let tagEnv : EnvVar := { name := tagVarName, value := tags }
  preProcessLoop tagEnv containers

/-- Embeds `createPatch` (injector lines 307-329).  A non-nil `svc` takes
the service branch and returns the `mutateService` ops alone; otherwise
the pod spec is assembled and the patch is the spec replacement followed
by the annotation op.  (Go's `json.Marshal` of the op list is elided: the
claims concern the operations themselves.) -/
def createPatch (pod : Pod) (svc : Option Service) (sidecarConfig : Config)
    (anns : List (String × String)) : List patchOperation :=
  match svc with
  | some s => mutateService s "/spec/ports" sidecarConfig
  | none =>
    let spec := addContainer pod (preProcessContainerTpl pod sidecarConfig.containers)
    let spec := addInitContainer spec sidecarConfig.initContainers
    let spec := addVolume spec sidecarConfig
    let spec := injectCAVolume spec sidecarConfig
    { op := "replace", path := "/spec", value := .spec spec } ::
      updateAnnotationOps pod.meta.anns anns

/-! ### gateway capability and route creation -/

/-- The fields of `tyk.APIDefOptions` that `createServiceRoutes` sets. -/
structure APIDefOptions where
  slug : String
  target : String
  listenPath : String
  templateName : String
  hostname : String
  name : String
  tags : List String
  anns : List (String × String)
deriving DecidableEq

/-- A gateway API definition as far as the injector reads it: only
`Id.Hex()` is consumed. -/
structure ApiDef where
  idHex : String
deriving DecidableEq

/-- One outbound call to the external `tyk` gateway capability. -/
inductive GatewayCall where
  | getBySlug (slug : String)
  | createService (opts : APIDefOptions)
deriving DecidableEq

/-- The external `tyk` package as a capability value: `GetBySlug`
(a `nil` error means found, modelled `some`; any error means "not created
yet", modelled `none`), `CreateService`, and the template-name constants
`TemplateNameKey`, `DefaultMeshTemplate`, `DefaultInboundTemplate` whose
string values live outside this repository. -/
structure TykEnv where
  getBySlug : String → Option ApiDef
  createService : APIDefOptions → Except String String
  templateNameKey : String
  defaultMeshTemplate : String
  defaultInboundTemplate : String

/-- Embeds `checkAndGetTemplate` (injector lines 331-343): the loop over
the pod's annotation map returns the template-name value when the key is
present (keys are unique), else the mesh or inbound default. -/
def checkAndGetTemplate (env : TykEnv) (pd : Pod) (isMesh : Bool) : String :=
  match (pd.meta.anns.getD []).lookup env.templateNameKey with
  | some v => v
  | none => if isMesh then env.defaultMeshTemplate else env.defaultInboundTemplate

/-- The `ns` defaulting of `createServiceRoutes` (injector lines 357-360). -/
def nsDefault (ns : String) : String := if ns = "" then "default" else ns

/-- The inbound-listener `APIDefOptions` of `createServiceRoutes`
(injector lines 363-374), for app label `sName` and defaulted namespace
`ns`. -/
def inboundOptsFor (env : TykEnv) (pod : Pod) (anns : List (String × String))
    (sName ns : String) : APIDefOptions :=
  { slug := sName ++ "-inbound"
    target := "http://localhost:6767"
    listenPath := "/"
    templateName := checkAndGetTemplate env pod false
    hostname := sName ++ "." ++ ns
    name := sName ++ "-inbound"
    tags := [sName]
    anns := anns }

/-- The mesh-route `APIDefOptions` of `createServiceRoutes` (injector
lines 392-419): scheme `https` exactly when `tls`, hostname
`<app>.<namespace>`, fixed port 8080; the listen path is the app label
unless the route annotation overrides it (the loop over the pod's
annotation map is a lookup, keys being unique).  The `Annotations` field
is not set in the source (zero value), hence `[]`. -/
def meshOptsFor (env : TykEnv) (pod : Pod) (sName ns : String) (tls : Bool) :
    APIDefOptions :=
  let hName := sName ++ "." ++ ns
  let pt : Int := 8080
  let tr := if tls then "https" else "http"
  let tgt := tr ++ "://" ++ hName ++ ":" ++ toString pt
  let listenPath :=
    match (pod.meta.anns.getD []).lookup admissionWebhookAnnotationRouteKey with
    | some v => v
    | none => sName
  { slug := sName ++ "-mesh"
    target := tgt
    listenPath := listenPath
    templateName := checkAndGetTemplate env pod true
    hostname := "mesh"
    name := sName ++ "-mesh"
    tags := [meshTag]
    anns := [] }

/-- The lookup-or-create step used for both the inbound and the mesh
route (injector lines 376-388 and 421-431): reuse the ID of a definition
found by slug; otherwise create, wrapping a creation failure as
`failed to create <what> service <slug>: <err>`.  The second component
records the gateway calls performed. -/
def routeStep (env : TykEnv) (opts : APIDefOptions) (what : String) :
    Except String String × List GatewayCall :=
  match env.getBySlug opts.slug with
  | some d => (.ok d.idHex, [.getBySlug opts.slug])
  | none =>
    match env.createService opts with
    | .ok i => (.ok i, [.getBySlug opts.slug, .createService opts])
    | .error e =>
      (.error ("failed to create " ++ what ++ " service " ++ opts.slug ++ ": " ++ e),
        [.getBySlug opts.slug, .createService opts])

/-- Embeds `createServiceRoutes` (injector lines 346-436).  Returns the
(annotation map, optional error message) pair the Go function returns,
paired with the list of gateway calls performed.  An existing
inbound-service-id annotation short-circuits the whole function; a
missing `app` label is an error; each route step aborts on failure with
the annotation map as updated so far. -/
def createServiceRoutes (env : TykEnv) (pod : Pod) (anns : List (String × String))
    (namesp : String) (tls : Bool) :
    (List (String × String) × Option String) × List GatewayCall :=
  if (anns.lookup AdmissionWebhookAnnotationInboundServiceIDKey).isSome then
    ((anns, none), [])
  else
    match pod.meta.labels.lookup "app" with
    | none => ((anns, some "app label is required"), [])
    | some sName =>
      let ns := nsDefault namesp
      match routeStep env (inboundOptsFor env pod anns sName ns) "inbound" with
      | (.error msg, calls) => ((anns, some msg), calls)
      | (.ok ibID, calls1) =>
        let anns1 := annSet anns AdmissionWebhookAnnotationInboundServiceIDKey ibID
        match routeStep env (meshOptsFor env pod sName ns tls) "mesh" with
        | (.error msg, calls2) => ((anns1, some msg), calls1 ++ calls2)
        | (.ok meshID, calls2) =>
          ((annSet anns1 AdmissionWebhookAnnotationMeshServiceIDKey meshID, none),
            calls1 ++ calls2)

/-- The policy-gate and annotation-write fragment of
`processPodMutations` (injector lines 558-567): `some none` is the
skipped path (no mutation), `some (some m)` the mutated annotation map,
and `none` the Go panic of assigning into a nil map — which the theorem
below shows unreachable. -/
def processPodAnnSteps (igl : List String) (meta : ObjectMeta) :
    Option (Option (List (String × String))) :=
  if mutationRequired igl meta then
    match annMapAssign meta.anns AdmissionWebhookAnnotationStatusKey "injected" with
    | none => none
    | some m => some (some (annDelete m AdmissionWebhookAnnotationInjectKey))
  else some none

/-! ### shared concrete fixtures for witnesses -/

/-- A pod with label `app=orders` and an empty (non-nil) annotation map. -/
def podOrders : Pod :=
  { meta := { name := "p", generateName := "", ns := "default",
              labels := [("app", "orders")], anns := some [] },
    spec := { containers := [], initContainers := [], hostAliases := [], volumes := [] } }

/-- A gateway capability where every lookup misses and creation succeeds
with `<slug>-id`. -/
def envAllOk : TykEnv :=
  { getBySlug := fun _ => none
    createService := fun o => .ok (o.slug ++ "-id")
    templateNameKey := "tyk.io/template"
    defaultMeshTemplate := "mesh-tpl"
    defaultInboundTemplate := "inbound-tpl" }

/-- A gateway capability where the inbound lookup succeeds (ID `ib-1`)
and every creation fails. -/
def envMeshFails : TykEnv :=
  { getBySlug := fun s => if s = "orders-inbound" then some ⟨"ib-1"⟩ else none
    createService := fun _ => .error "boom"
    templateNameKey := "tyk.io/template"
    defaultMeshTemplate := "mesh-tpl"
    defaultInboundTemplate := "inbound-tpl" }

/-! ### helper lemmas -/

theorem lookup_annSet_self (m : List (String × String)) (k v : String) :
    (annSet m k v).lookup k = some v := by
  induction m with
  | nil => simp [annSet, List.lookup]
  | cons p tl ih =>
    obtain ⟨k', v'⟩ := p
    by_cases h : k' = k
    · simp [annSet, h, List.lookup]
    · have hb : (k == k') = false := beq_eq_false_iff_ne.mpr (Ne.symm h)
      simp [annSet, h, List.lookup, hb, ih]

theorem lookup_annSet_ne (m : List (String × String)) (k v k' : String)
    (h : k' ≠ k) : (annSet m k v).lookup k' = m.lookup k' := by
  have hb : (k' == k) = false := beq_eq_false_iff_ne.mpr h
  induction m with
  | nil => simp [annSet, List.lookup, hb]
  | cons p tl ih =>
    obtain ⟨k'', v''⟩ := p
    by_cases hk : k'' = k
    · subst hk
      simp [annSet, List.lookup, hb]
    · simp [annSet, hk, List.lookup, ih]

/-! ### C1 -/

/-- C1, counterexample.  The claim asserts that processing the single
annotation `string.service.tyk.io/foo-bar = "baz"` against `\x7b\x7d`
yields a document whose path `foo.bar` is `"baz"` (the nested object).
In fact the processing succeeds but the path `foo.bar` resolves to
nothing: the dash becomes an underscore inside one flat key. -/
theorem c1_counterexample :
    (Process [("string.service.tyk.io/foo-bar", "baz")] (Json.obj [])).2 = none ∧
    jsonGetString ["foo", "bar"]
      (Process [("string.service.tyk.io/foo-bar", "baz")] (Json.obj [])).1 ≠
      some "baz" := by
  constructor
  · decide
  · decide

/-- C1, amended.  Applying the Annotation Mutation Processor to the empty
document with the single annotation key `string.service.tyk.io/foo-bar`
and value `"baz"` succeeds and yields the flat document
`\x7b"foo_bar":"baz"\x7d`: the dash is translated to an underscore within a
single path segment, not into a nested-path separator. -/
theorem c1_dash_to_underscore_flat_key :
    Process [("string.service.tyk.io/foo-bar", "baz")] (Json.obj []) =
      (Json.obj [("foo_bar", Json.str "baz")], none) ∧
    jsonGetString ["foo_bar"]
      (Process [("string.service.tyk.io/foo-bar", "baz")] (Json.obj [])).1 =
      some "baz" := by
  constructor
  · rfl
  · decide

/-! ### C2 -/

/-- C2.  `preProcessContainerTpl` is called on
`whsvr.SidecarConfig.Containers` itself; in Go the element writes at
lines 292 and 298 go through the shared slice backing array, so the list
this function returns is the config's container list after the call.
Evaluated at a sidecar config holding one `tyk-mesh` container with an
empty `Env` and a pod labelled `app=orders`, the call changes the
container list: the tag variable `TYK_GW_DBAPPCONFOPTIONS_TAGS =
mesh,orders` is written into the config-owned container, so the sidecar
template is not read-only across admission calls (the source's own TODO
at line 278 records the resulting tag accumulation). -/
theorem c2_sidecar_config_mutated :
    preProcessContainerTpl podOrders [{ name := "tyk-mesh", env := [], volumeMounts := [] }] =
      [{ name := "tyk-mesh",
         env := [{ name := tagVarName, value := "mesh,orders" }],
         volumeMounts := [] }] ∧
    preProcessContainerTpl podOrders [{ name := "tyk-mesh", env := [], volumeMounts := [] }] ≠
      [{ name := "tyk-mesh", env := [], volumeMounts := [] }] := by
  constructor
  · decide
  · decide

/-! ### C3 -/

/-- C3.  `mutationRequired` returns false for every object whose
namespace is ignored, regardless of annotations; returns false whenever
the status annotation equals `injected` case-insensitively; and otherwise
returns true exactly when the lowered inject-flag value is one of
`y`, `yes`, `true`, `on`. -/
theorem c3_mutationRequired_policy (igl : List String) (meta : ObjectMeta) :
    (meta.ns ∈ igl → mutationRequired igl meta = false) ∧
    (strToLower (annGet (meta.anns.getD []) AdmissionWebhookAnnotationStatusKey) =
        "injected" → mutationRequired igl meta = false) ∧
    (meta.ns ∉ igl →
      strToLower (annGet (meta.anns.getD []) AdmissionWebhookAnnotationStatusKey) ≠
        "injected" →
      (mutationRequired igl meta = true ↔
        strToLower (annGet (meta.anns.getD []) AdmissionWebhookAnnotationInjectKey) ∈
          (["y", "yes", "true", "on"] : List String))) := by
  refine ⟨?_, ?_, ?_⟩
  · intro h
    simp [mutationRequired, h]
  · intro h
    by_cases hm : meta.ns ∈ igl
    · simp [mutationRequired, hm]
    · simp [mutationRequired, hm, h]
  · intro hns hst
    simp [mutationRequired, hns, hst]

/-- C3, witness: a pod in an ignored namespace with a truthy inject flag
is still not mutated. -/
theorem c3_witness :
    mutationRequired ["kube-system", "kube-public"]
      { name := "p", generateName := "", ns := "kube-system", labels := [],
        anns := some [(AdmissionWebhookAnnotationInjectKey, "true")] } = false :=
  (c3_mutationRequired_policy ["kube-system", "kube-public"]
    { name := "p", generateName := "", ns := "kube-system", labels := [],
      anns := some [(AdmissionWebhookAnnotationInjectKey, "true")] }).1
    (by decide)

/-! ### C4 -/

/-- C4.  If the annotation map already contains the inbound-service-id
key, `createServiceRoutes` returns the map unchanged with no error and
performs no gateway call at all. -/
theorem c4_createServiceRoutes_noop (env : TykEnv) (pod : Pod)
    (anns : List (String × String)) (namesp : String) (tls : Bool)
    (h : (anns.lookup AdmissionWebhookAnnotationInboundServiceIDKey).isSome = true) :
    createServiceRoutes env pod anns namesp tls = ((anns, none), []) := by
  simp [createServiceRoutes, h]

/-- C4, witness: a second registration call for annotations that already
carry an inbound-service-id is a no-op with an empty gateway trace. -/
theorem c4_witness :
    createServiceRoutes envAllOk podOrders
      [(AdmissionWebhookAnnotationInboundServiceIDKey, "ib-0")] "default" false =
      (([(AdmissionWebhookAnnotationInboundServiceIDKey, "ib-0")], none), []) :=
  c4_createServiceRoutes_noop envAllOk podOrders
    [(AdmissionWebhookAnnotationInboundServiceIDKey, "ib-0")] "default" false (by decide)

/-! ### C5 -/

/-- C5.  `mutateService` emits exactly one patch operation, whose value
is always the fixed sidecar service port 8080: an `add` at `/spec/ports`
when the service already has more than one port, and a `replace` at
`/spec/ports/0` when it has zero or one port. -/
theorem c5_mutateService_single_port_patch (svc : Service) (basePath : String)
    (cfg : Config) :
    ∃ p : patchOperation,
      mutateService svc basePath cfg = [p] ∧
      p.value = .svcPort { name := "tyk-sidecar", port := 8080, targetPort := 8080 } ∧
      ((1 < svc.spec.ports.length ∧ p.op = "add" ∧ p.path = "/spec/ports") ∨
       (svc.spec.ports.length ≤ 1 ∧ p.op = "replace" ∧ p.path = "/spec/ports/0")) := by
  refine ⟨_, rfl, rfl, ?_⟩
  by_cases h : svc.spec.ports.length > 1
  · exact Or.inl ⟨h, by simp [h], by simp [h]⟩
  · exact Or.inr ⟨by omega, by simp [h], by simp [h]⟩

/-! ### C9 -/

/-- C9.  A nil annotation map never demands mutation, so whenever
`mutationRequired` is true the map is non-nil, and the status/inject
writes of `processPodMutations` never hit a nil map (the panic case of
`processPodAnnSteps` is unreachable). -/
theorem c9_nil_annotations_safety (igl : List String) (meta : ObjectMeta) :
    (meta.anns = none → mutationRequired igl meta = false) ∧
    (mutationRequired igl meta = true → meta.anns ≠ none) ∧
    processPodAnnSteps igl meta ≠ none := by
  have h1 : meta.anns = none → mutationRequired igl meta = false := by
    intro h
    by_cases hm : meta.ns ∈ igl
    · simp [mutationRequired, hm]
    · simp [mutationRequired, h, hm]
      decide
  have h2 : mutationRequired igl meta = true → meta.anns ≠ none := by
    intro hreq hn
    rw [h1 hn] at hreq
    exact absurd hreq (by decide)
  refine ⟨h1, h2, ?_⟩
  by_cases hr : mutationRequired igl meta = true
  · cases hanns : meta.anns with
    | none => exact absurd hanns (h2 hr)
    | some m => simp [processPodAnnSteps, hr, hanns, annMapAssign]
  · simp [processPodAnnSteps, hr]

/-- C9, witness: at a pod with no annotation map the policy engine
answers false. -/
theorem c9_witness :
    mutationRequired ignoredNamespaces
      { name := "p", generateName := "", ns := "default", labels := [],
        anns := none } = false :=
  (c9_nil_annotations_safety ignoredNamespaces
    { name := "p", generateName := "", ns := "default", labels := [],
      anns := none }).1 rfl

/-! ### C10 -/

/-- C10.  On the Service branch, `createPatch` returns exactly the single
`mutateService` ports operation, whatever annotation map it is handed: no
operation touches `/metadata/annotations` and no operation carries an
annotation-map value, so the injected status marker is never persisted
onto a Service. -/
theorem c10_service_patch_single_op (pod : Pod) (svc : Service) (cfg : Config)
    (anns : List (String × String)) :
    createPatch pod (some svc) cfg anns = mutateService svc "/spec/ports" cfg ∧
    (createPatch pod (some svc) cfg anns).length = 1 ∧
    (createPatch pod (some svc) cfg anns).all
      (fun p => p.path != "/metadata/annotations") = true ∧
    (createPatch pod (some svc) cfg anns).all
      (fun p => match p.value with | .anns _ => false | _ => true) = true := by
  refine ⟨rfl, ?_, ?_, ?_⟩
  · simp [createPatch, mutateService]
  · by_cases h : svc.spec.ports.length > 1 <;>
      simp [createPatch, mutateService, h]
  · by_cases h : svc.spec.ports.length > 1 <;>
      simp [createPatch, mutateService, h]

/-! ### C6 -/

theorem strHasPfx_first_char {p s : String} {c : Char} {r : List Char}
    (hp : p.data = c :: r) (h : strHasPfx p s = true) :
    ∃ cs, s.data = c :: cs := by
  unfold strHasPfx at h
  rw [hp] at h
  cases hs : s.data with
  | nil => rw [hs] at h; simp [List.isPrefixOf] at h
  | cons c' cs' =>
    rw [hs] at h
    simp [List.isPrefixOf] at h
    exact ⟨cs', by rw [h.1]⟩

theorem not_strHasPfx_of_head_ne {p s : String} {c c' : Char} {r cs : List Char}
    (hp : p.data = c :: r) (hs : s.data = c' :: cs) (hne : c ≠ c') :
    strHasPfx p s = false := by
  unfold strHasPfx
  rw [hp, hs]
  simp [List.isPrefixOf, hne]

/-- The five typed-key namespaces start with pairwise distinct characters,
so a key in the bool namespace is in no other namespace. -/
theorem boolPfx_excl {k : String} (h : strHasPfx ValueSetBoolKey k = true) :
    strHasPfx ValueSetStringKey k = false ∧ strHasPfx ValueSetNumKey k = false ∧
    strHasPfx ArraySetKey k = false ∧ strHasPfx ObjectSetKey k = false := by
  obtain ⟨cs, hk⟩ := strHasPfx_first_char (p := ValueSetBoolKey)
    (c := 'b') (r := ("ool.service.tyk.io/" : String).data) rfl h
  exact ⟨not_strHasPfx_of_head_ne (c := 's')
            (r := ("tring.service.tyk.io/" : String).data) rfl hk (by decide),
         not_strHasPfx_of_head_ne (c := 'n')
            (r := ("um.service.tyk.io/" : String).data) rfl hk (by decide),
         not_strHasPfx_of_head_ne (c := 'a')
            (r := ("rray.service.tyk.io/" : String).data) rfl hk (by decide),
         not_strHasPfx_of_head_ne (c := 'o')
            (r := ("bject.service.tyk.io/" : String).data) rfl hk (by decide)⟩

/-- A bool-namespace entry whose lowered value is neither `true` nor
`false` fails with the unsupported-bool error and leaves the document
untouched. -/
theorem processEntry_bool_unsupported {k v : String} {doc : Json}
    (hk : strHasPfx ValueSetBoolKey k = true)
    (h1 : strToLower v ≠ "true") (h2 : strToLower v ≠ "false") :
    processEntry k v doc = (doc, some ProcError.unsupportedBoolValue) := by
  obtain ⟨hs, hn, ha, ho⟩ := boolPfx_excl hk
  simp [processEntry, thenPfx, valueTypeStr, hs, hn, hk, ha, ho, set, h1, h2]

/-- C6, amended.  If all entries iterated before a bool-namespace entry
succeed, producing document `d`, and the entry's lowered value is neither
`true` nor `false`, then `Process` aborts at that entry: it returns the
document accumulated so far together with the unsupported-bool error, and
the remaining entries are never processed (nothing is rolled back). -/
theorem c6_abort_with_unsupported_bool (pre : List (String × String)) (k v : String)
    (rest : List (String × String)) (doc d : Json)
    (hpre : Process pre doc = (d, none))
    (hk : strHasPfx ValueSetBoolKey k = true)
    (h1 : strToLower v ≠ "true") (h2 : strToLower v ≠ "false") :
    Process (pre ++ (k, v) :: rest) doc = (d, some ProcError.unsupportedBoolValue) := by
  induction pre generalizing doc with
  | nil =>
    have hd : doc = d := by
      have h' := hpre
      simp [Process, Prod.ext_iff] at h'
      exact h'
    subst hd
    simp [Process, processEntry_bool_unsupported hk h1 h2]
  | cons e tl ih =>
    obtain ⟨ek, ev⟩ := e
    simp only [List.cons_append, Process] at hpre ⊢
    cases hpe : processEntry ek ev doc with
    | mk d' err =>
      rw [hpe] at hpre
      cases err with
      | none => exact ih d' hpre
      | some e' =>
        exact Option.noConfusion
          (show (some e' : Option ProcError) = none from congrArg Prod.snd hpre)

/-- C6, counterexample to the claim as stated.  An annotation list that
also contains a failing num-namespace entry iterated before the bad bool
entry makes `Process` return the Atoi parse error, not the
unsupported-bool error, so "for every annotation map containing a bad
bool entry, Process returns UnsupportedValue" fails. -/
theorem c6_counterexample :
    (Process [("num.service.tyk.io/a", "x"), ("bool.service.tyk.io/b", "maybe")]
      (Json.obj [])).2 = some ProcError.atoiError ∧
    (Process [("num.service.tyk.io/a", "x"), ("bool.service.tyk.io/b", "maybe")]
      (Json.obj [])).2 ≠ some ProcError.unsupportedBoolValue := by
  constructor
  · decide
  · decide

/-- C6, witness: after one successful string entry, a bool entry with
value `maybe` aborts with the unsupported-bool error and the document
accumulated so far; the pending entry is not processed. -/
theorem c6_witness :
    Process ([("string.service.tyk.io/x", "y")] ++
        ("bool.service.tyk.io/flag", "maybe") :: [("string.service.tyk.io/z", "w")])
      (Json.obj []) =
      (Json.obj [("x", Json.str "y")], some ProcError.unsupportedBoolValue) :=
  c6_abort_with_unsupported_bool [("string.service.tyk.io/x", "y")]
    "bool.service.tyk.io/flag" "maybe" [("string.service.tyk.io/z", "w")]
    (Json.obj []) (Json.obj [("x", Json.str "y")]) rfl (by decide) (by decide) (by decide)

/-! ### C7 -/

/-- C7.  Once `createServiceRoutes` passes the idempotence guard and the
app label is present, the mesh route options it builds (and passes to the
gateway's create call when the mesh slug lookup misses) have: target URL
with scheme `https` iff `tls` (else `http`), hostname
`<app-label>.<namespace>` with the namespace defaulting to `default` when
empty, fixed port 8080; listen path equal to the app label unless the
route-override annotation is present, in which case its value; and slug
`<app-label>-mesh`. -/
theorem c7_mesh_route_options (env : TykEnv) (pod : Pod) (anns : List (String × String))
    (namesp : String) (tls : Bool) (sName ibID : String)
    (h0 : anns.lookup AdmissionWebhookAnnotationInboundServiceIDKey = none)
    (hl : pod.meta.labels.lookup "app" = some sName)
    (hib : (routeStep env (inboundOptsFor env pod anns sName (nsDefault namesp)) "inbound").1 =
      Except.ok ibID)
    (hm : env.getBySlug (sName ++ "-mesh") = none) :
    GatewayCall.createService (meshOptsFor env pod sName (nsDefault namesp) tls) ∈
      (createServiceRoutes env pod anns namesp tls).2 ∧
    (meshOptsFor env pod sName (nsDefault namesp) tls).target =
      (if tls then "https" else "http") ++ "://" ++ sName ++ "." ++ nsDefault namesp ++ ":8080" ∧
    (meshOptsFor env pod sName (nsDefault namesp) tls).listenPath =
      ((pod.meta.anns.getD []).lookup admissionWebhookAnnotationRouteKey).getD sName ∧
    (meshOptsFor env pod sName (nsDefault namesp) tls).slug = sName ++ "-mesh" ∧
    (namesp = "" → nsDefault namesp = "default") := by
  refine ⟨?_, ?_, ?_, rfl, fun h => by simp [nsDefault, h]⟩
  · rcases hr : routeStep env (inboundOptsFor env pod anns sName (nsDefault namesp)) "inbound"
      with ⟨res, cs1⟩
    rw [hr] at hib
    have hib2 : res = Except.ok ibID := hib
    subst hib2
    have hslug : (meshOptsFor env pod sName (nsDefault namesp) tls).slug = sName ++ "-mesh" := rfl
    cases hcs : env.createService (meshOptsFor env pod sName (nsDefault namesp) tls) with
    | ok i =>
      have hms : routeStep env (meshOptsFor env pod sName (nsDefault namesp) tls) "mesh" =
          (Except.ok i,
            [GatewayCall.getBySlug (sName ++ "-mesh"),
             GatewayCall.createService (meshOptsFor env pod sName (nsDefault namesp) tls)]) := by
        simp [routeStep, hslug, hm, hcs]
      simp [createServiceRoutes, h0, hl, hr, hms]
    | error e =>
      have hms : routeStep env (meshOptsFor env pod sName (nsDefault namesp) tls) "mesh" =
          (Except.error
              ("failed to create " ++ "mesh" ++ " service " ++ (sName ++ "-mesh") ++ ": " ++ e),
            [GatewayCall.getBySlug (sName ++ "-mesh"),
             GatewayCall.createService (meshOptsFor env pod sName (nsDefault namesp) tls)]) := by
        simp [routeStep, hslug, hm, hcs]
      simp [createServiceRoutes, h0, hl, hr, hms]
  · have h8 : toString (8080 : Int) = "8080" := by decide
    have hcat : (":" : String) ++ "8080" = ":8080" := by decide
    simp [meshOptsFor, h8, String.append_assoc, hcat]
  · cases hlp : (pod.meta.anns.getD []).lookup admissionWebhookAnnotationRouteKey <;>
      simp [meshOptsFor, hlp]

/-- C7, witness: with a gateway whose lookups miss and whose creates
succeed, the mesh create call of a TLS-enabled registration for a pod
labelled `app=orders` in the empty namespace carries exactly the computed
mesh options. -/
theorem c7_witness :
    GatewayCall.createService (meshOptsFor envAllOk podOrders "orders" (nsDefault "") true) ∈
      (createServiceRoutes envAllOk podOrders [] "" true).2 ∧
    (meshOptsFor envAllOk podOrders "orders" (nsDefault "") true).target =
      (if true then "https" else "http") ++ "://" ++ "orders" ++ "." ++ nsDefault "" ++ ":8080" ∧
    (meshOptsFor envAllOk podOrders "orders" (nsDefault "") true).listenPath =
      ((podOrders.meta.anns.getD []).lookup admissionWebhookAnnotationRouteKey).getD "orders" ∧
    (meshOptsFor envAllOk podOrders "orders" (nsDefault "") true).slug = "orders" ++ "-mesh" ∧
    ("" = "" → nsDefault "" = "default") :=
  c7_mesh_route_options envAllOk podOrders [] "" true "orders" "orders-inbound-id"
    rfl rfl rfl rfl

/-! ### C8 -/

/-- C8.  When the inbound step of `createServiceRoutes` succeeds but the
mesh step fails, the function aborts there, returning the error together
with the partially-updated annotation map: it carries the
inbound-service-id written by the completed step but (provided the input
lacked one) no mesh-service-id; the gateway trace is the two steps'
calls. -/
theorem c8_mesh_failure_partial_map (env : TykEnv) (pod : Pod)
    (anns : List (String × String)) (namesp : String) (tls : Bool)
    (sName ibID msg : String) (cs1 cs2 : List GatewayCall)
    (h0 : anns.lookup AdmissionWebhookAnnotationInboundServiceIDKey = none)
    (h0m : anns.lookup AdmissionWebhookAnnotationMeshServiceIDKey = none)
    (hl : pod.meta.labels.lookup "app" = some sName)
    (hib : routeStep env (inboundOptsFor env pod anns sName (nsDefault namesp)) "inbound" =
      (Except.ok ibID, cs1))
    (hm : routeStep env (meshOptsFor env pod sName (nsDefault namesp) tls) "mesh" =
      (Except.error msg, cs2)) :
    createServiceRoutes env pod anns namesp tls =
      ((annSet anns AdmissionWebhookAnnotationInboundServiceIDKey ibID, some msg),
        cs1 ++ cs2) ∧
    (annSet anns AdmissionWebhookAnnotationInboundServiceIDKey ibID).lookup
      AdmissionWebhookAnnotationInboundServiceIDKey = some ibID ∧
    (annSet anns AdmissionWebhookAnnotationInboundServiceIDKey ibID).lookup
      AdmissionWebhookAnnotationMeshServiceIDKey = none := by
  refine ⟨?_, lookup_annSet_self _ _ _, ?_⟩
  · simp [createServiceRoutes, h0, hl, hib, hm]
  · rw [lookup_annSet_ne _ _ _ _ (by decide)]
    exact h0m

/-- C8, witness: the inbound lookup finds `ib-1`, the mesh creation fails
with `boom`; the returned map holds only the inbound ID and the error
reports the mesh slug. -/
theorem c8_witness :
    createServiceRoutes envMeshFails podOrders [] "" false =
      ((annSet [] AdmissionWebhookAnnotationInboundServiceIDKey "ib-1",
        some "failed to create mesh service orders-mesh: boom"),
        [GatewayCall.getBySlug "orders-inbound"] ++
          [GatewayCall.getBySlug "orders-mesh",
           GatewayCall.createService
             (meshOptsFor envMeshFails podOrders "orders" (nsDefault "") false)]) ∧
    (annSet [] AdmissionWebhookAnnotationInboundServiceIDKey "ib-1").lookup
      AdmissionWebhookAnnotationInboundServiceIDKey = some "ib-1" ∧
    (annSet [] AdmissionWebhookAnnotationInboundServiceIDKey "ib-1").lookup
      AdmissionWebhookAnnotationMeshServiceIDKey = none :=
  c8_mesh_failure_partial_map envMeshFails podOrders [] "" false "orders" "ib-1"
    "failed to create mesh service orders-mesh: boom"
    [GatewayCall.getBySlug "orders-inbound"]
    [GatewayCall.getBySlug "orders-mesh",
     GatewayCall.createService
       (meshOptsFor envMeshFails podOrders "orders" (nsDefault "") false)]
    rfl rfl rfl rfl rfl

end TykK8s
